import Mathlib

/-!
Verification of the usage-reporting option normalization in
`src/packages/apollo-server-core/src/plugin/usageReporting/legacyOptions.ts`.

The TypeScript function `legacyOptionsToPluginOptions` consumes the legacy
`engine` option record (`EngineReportingOptions`) and produces the canonical
plugin option record (`ApolloServerPluginUsageReportingOptions`), throwing on
conflicting deprecated/current option pairs.  We embed the records and the
function shallowly:

* optional fields become `Option`; the fields `privateVariables` and
  `privateHeaders`, where the code distinguishes the JavaScript values
  `undefined` and `null` (`typeof x !== 'undefined'` vs `x !== null`), become
  the three-valued `JSOpt`;
* function-valued fields that the code merely copies (signature calculation,
  error-report callback, client-info generator, request agent, timing
  predicate, variable-value transform) are opaque `Nat` handles; the
  `rewriteError` field, whose synthesized value the spec constrains, is a real
  Lean function on an error record with a message string;
* the JavaScript value stored in `rewriteError` may at runtime be a
  non-function (the code guards with `typeof engine.rewriteError !==
  'function'`), so that field is an option of either a function or an opaque
  non-function value carrying its JavaScript truthiness;
* `throw new Error(msg)` becomes `Except.error`; following the spec's error
  taxonomy, the three both-options-set throw sites carry `conflictingOptions`
  and the non-function `rewriteError` throw site carries `invalidOptionType`,
  each with the exact message string of the source;
* the single mutation of the input (`delete engine.maskErrorDetails`, line
  317) is modelled by `legacyOptionsToPluginOptionsRun`, which returns the
  result together with the final state of the input record.
-/

/-- A JavaScript optional value whose `undefined` and `null` states the code
distinguishes (`typeof x !== 'undefined'`, `x !== null`). -/
inductive JSOpt (α : Type) where
  | undefined
  | null
  | value (v : α)
deriving DecidableEq, Repr

/-- `typeof x !== 'undefined'`. -/
def JSOpt.isDefined : JSOpt α → Bool
  | .undefined => false
  | _ => true

/-- The value space of the deprecated options `privateVariables` and
`privateHeaders`: `Array<String> | boolean` (legacyOptions.ts lines 144, 169,
366). -/
inductive LegacyPrivateOption where
  | arr (names : List String)
  | bool (b : Bool)
deriving DecidableEq, Repr

/-- `SendValuesBaseOptions` from `./options`: exactly one of `{none: true}`,
`{all: true}`, `{exceptNames: [...]}`, `{onlyNames: [...]}` (the shapes listed
in the doc comment at legacyOptions.ts lines 150-154). -/
inductive SendValuesBaseOptions where
  | sendNone
  | sendAll
  | exceptNames (names : List String)
  | onlyNames (names : List String)
deriving DecidableEq, Repr

/-- `VariableValueOptions` from `./options`: `SendValuesBaseOptions` extended
with the `{transform: ...}` alternative (legacyOptions.ts lines 81-86); the
transform function is an opaque handle since the code only copies it. -/
inductive VariableValueOptions where
  | base (opts : SendValuesBaseOptions)
  | transform (handle : Nat)
deriving DecidableEq, Repr

/-- `GraphQLError`, reduced to the one observable the claims constrain: its
message string. -/
structure GraphQLError where
  message : String
deriving DecidableEq, Repr

/-- The JavaScript value held by the `engine.rewriteError` field when set.  Its
declared type is `(err: GraphQLError) => GraphQLError | null`, but the code
guards against a runtime non-function (`typeof engine.rewriteError !==
'function'`, line 313), so a set field is either a function or an opaque
non-function value carrying its JavaScript truthiness. -/
inductive RewriteErrorOption where
  | func (f : GraphQLError → Option GraphQLError)
  | notFunc (truthy : Bool)

/-- `ReportTimingOptions`: a predicate function (opaque handle) or a boolean
(legacyOptions.ts lines 269-275). -/
inductive ReportTimingOptions where
  | func (handle : Nat)
  | bool (b : Bool)
deriving DecidableEq, Repr

/-- The legacy `engine` option record `EngineReportingOptions` (legacyOptions.ts
lines 19-267), all fields optional.  Fields whose values the normalizer only
copies are opaque handles; numbers are `Int`, strings are `String`. -/
structure EngineReportingOptions where
  apiKey : Option String := none
  calculateSignature : Option Nat := none
  reportIntervalMs : Option Int := none
  maxUncompressedReportSize : Option Int := none
  endpointUrl : Option String := none
  tracesEndpointUrl : Option String := none
  debugPrintReports : Option Bool := none
  requestAgent : Option Nat := none
  maxAttempts : Option Int := none
  minimumRetryDelayMs : Option Int := none
  reportErrorFunction : Option Nat := none
  sendVariableValues : Option VariableValueOptions := none
  reportTiming : Option ReportTimingOptions := none
  privateVariables : JSOpt LegacyPrivateOption := .undefined
  sendHeaders : Option SendValuesBaseOptions := none
  privateHeaders : JSOpt LegacyPrivateOption := .undefined
  handleSignals : Option Bool := none
  sendReportsImmediately : Option Bool := none
  maskErrorDetails : Option Bool := none
  rewriteError : Option RewriteErrorOption := none
  schemaTag : Option String := none
  graphVariant : Option String := none
  generateClientInfo : Option Nat := none
  reportSchema : Option Bool := none
  overrideReportedSchema : Option String := none
  schemaReportingInitialDelayMaxMs : Option Int := none
  schemaReportingUrl : Option String := none
  logger : Option Nat := none
  experimental_schemaReporting : Option Bool := none
  experimental_overrideReportedSchema : Option String := none
  experimental_schemaReportingInitialDelayMaxMs : Option Int := none

/-- The canonical record `ApolloServerPluginUsageReportingOptions`, restricted
to the fields `legacyOptionsToPluginOptions` assigns (lines 292-357): the
current-name counterparts of the legacy fields. -/
structure ApolloServerPluginUsageReportingOptions where
  calculateSignature : Option Nat := none
  reportIntervalMs : Option Int := none
  maxUncompressedReportSize : Option Int := none
  endpointUrl : Option String := none
  debugPrintReports : Option Bool := none
  requestAgent : Option Nat := none
  maxAttempts : Option Int := none
  minimumRetryDelayMs : Option Int := none
  reportErrorFunction : Option Nat := none
  sendVariableValues : Option VariableValueOptions := none
  includeRequest : Option Nat := none
  sendHeaders : Option SendValuesBaseOptions := none
  sendReportsImmediately : Option Bool := none
  rewriteError : Option (GraphQLError → Option GraphQLError) := none
  generateClientInfo : Option Nat := none

/-- The spec's error taxonomy (spec.md section 7): the three
both-options-set throw sites are `ConflictingOptions`, the non-function
`rewriteError` throw site is `InvalidOptionType`; each carries the thrown
message. -/
inductive ConfigError where
  | conflictingOptions (desc : String)
  | invalidOptionType (desc : String)
deriving DecidableEq, Repr

/-- Whether an `Except` value is an error. -/
def Except.isErr : Except ε α → Bool
  | .error _ => true
  | .ok _ => false

/-- JavaScript truthiness of the optional boolean `engine.maskErrorDetails`:
truthy exactly when present and `true`. -/
def maskTruthy : Option Bool → Bool
  | some b => b
  | none => false

/-- JavaScript truthiness of `engine.rewriteError`: a function is truthy, a
non-function carries its own truthiness, `undefined` is falsy. -/
def rewriteTruthy : Option RewriteErrorOption → Bool
  | some (.func _) => true
  | some (.notFunc t) => t
  | none => false

/-- `typeof engine.rewriteError === 'function'`. -/
def rewriteIsFunction : Option RewriteErrorOption → Bool
  | some (.func _) => true
  | _ => false

/-- The function stored in `engine.rewriteError`, when it holds one (used for
the assignment `pluginOptions.rewriteError = engine.rewriteError`, line 319,
reached only when the value is known to be a function). -/
def rewriteFunctionOf : Option RewriteErrorOption → Option (GraphQLError → Option GraphQLError)
  | some (.func f) => some f
  | _ => none

/-- Condition of line 311: `engine.maskErrorDetails && engine.rewriteError`. -/
def hasMaskRewriteConflict (engine : EngineReportingOptions) : Bool :=
  maskTruthy engine.maskErrorDetails && rewriteTruthy engine.rewriteError

/-- Condition of line 313: `engine.rewriteError && typeof engine.rewriteError
!== 'function'`. -/
def hasRewriteTypeError (engine : EngineReportingOptions) : Bool :=
  rewriteTruthy engine.rewriteError && !rewriteIsFunction engine.rewriteError

/-- Condition of lines 324-327: `typeof engine.privateVariables !==
'undefined' && engine.sendVariableValues` (an object is always truthy). -/
def hasPrivateVariablesConflict (engine : EngineReportingOptions) : Bool :=
  engine.privateVariables.isDefined && engine.sendVariableValues.isSome

/-- Condition of line 344: `typeof engine.privateHeaders !== 'undefined' &&
engine.sendHeaders`. -/
def hasPrivateHeadersConflict (engine : EngineReportingOptions) : Bool :=
  engine.privateHeaders.isDefined && engine.sendHeaders.isSome

/-- Message of line 312. -/
def maskRewriteConflictMessage : String :=
  "Can't set both maskErrorDetails and rewriteError!"

/-- Message of line 314. -/
def rewriteErrorTypeMessage : String := "rewriteError must be a function"

/-- Message of lines 329-331. -/
def privateVariablesConflictMessage : String :=
  "You have set both the 'sendVariableValues' and the deprecated 'privateVariables' options. Please only set 'sendVariableValues' (ideally, when calling `ApolloServerPluginUsageReporting` instead of the deprecated `engine` option to the `ApolloServer` constructor)."

/-- Message of lines 346-348 (the source names `privateVariables` here too). -/
def privateHeadersConflictMessage : String :=
  "You have set both the 'sendHeaders' and the deprecated 'privateVariables' options. Please only set 'sendHeaders' (ideally, when calling `ApolloServerPluginUsageReporting` instead of the deprecated `engine` option to the `ApolloServer` constructor)."

/-- The fixed redaction marker of the synthesized rewrite function (line 316:
`() => new GraphQLError('<masked>')`). -/
def maskedMessage : String := "<masked>"

/-- `makeSendValuesBaseOptionsFromLegacy` (lines 365-375): an array becomes
`{exceptNames: array}`; a truthy boolean `{none: true}`; a falsy one
`{all: true}`. -/
def makeSendValuesBaseOptionsFromLegacy : LegacyPrivateOption → SendValuesBaseOptions
  | .arr names => .exceptNames names
  | .bool true => .sendNone
  | .bool false => .sendAll

/-- `legacyOptionsToPluginOptions` (lines 285-360) with the input's mutation
made explicit: the returned pair is (thrown error or returned canonical
record, final state of the `engine` argument).  The statement order of the
source is kept: field assignments of lines 292-308; the error-masking chain of
lines 310-320 (whose third branch deletes `engine.maskErrorDetails`);
`generateClientInfo` (line 321); the `privateVariables` block (lines
324-341); the `privateHeaders` block (lines 344-358). -/
def legacyOptionsToPluginOptionsRun (engine : EngineReportingOptions) :
    Except ConfigError ApolloServerPluginUsageReportingOptions × EngineReportingOptions :=
  let pluginOptions : ApolloServerPluginUsageReportingOptions :=
    { calculateSignature := engine.calculateSignature
      reportIntervalMs := engine.reportIntervalMs
      maxUncompressedReportSize := engine.maxUncompressedReportSize
      endpointUrl := engine.tracesEndpointUrl.or engine.endpointUrl
      debugPrintReports := engine.debugPrintReports
      requestAgent := engine.requestAgent
      maxAttempts := engine.maxAttempts
      minimumRetryDelayMs := engine.minimumRetryDelayMs
      reportErrorFunction := engine.reportErrorFunction
      sendVariableValues := engine.sendVariableValues
      includeRequest :=
        match engine.reportTiming with
        | some (.func h) => some h
        | _ => none
      sendHeaders := engine.sendHeaders
      sendReportsImmediately := engine.sendReportsImmediately }
  if hasMaskRewriteConflict engine then
    (.error (.conflictingOptions maskRewriteConflictMessage), engine)
  else if hasRewriteTypeError engine then
    (.error (.invalidOptionType rewriteErrorTypeMessage), engine)
  else
    let maskStep : ApolloServerPluginUsageReportingOptions × EngineReportingOptions :=
      if maskTruthy engine.maskErrorDetails then
        ({ pluginOptions with
            rewriteError := some fun _ => some { message := maskedMessage } },
          { engine with maskErrorDetails := none })
      else if rewriteTruthy engine.rewriteError then
        ({ pluginOptions with rewriteError := rewriteFunctionOf engine.rewriteError },
          engine)
      else (pluginOptions, engine)
    let engine := maskStep.2
    let pluginOptions :=
      { maskStep.1 with generateClientInfo := engine.generateClientInfo }
    if hasPrivateVariablesConflict engine then
      (.error (.conflictingOptions privateVariablesConflictMessage), engine)
    else
      let pluginOptions :=
        match engine.privateVariables with
        | .value v =>
          { pluginOptions with
              sendVariableValues := some (.base (makeSendValuesBaseOptionsFromLegacy v)) }
        | .null => pluginOptions
        | .undefined => { pluginOptions with sendVariableValues := engine.sendVariableValues }
      if hasPrivateHeadersConflict engine then
        (.error (.conflictingOptions privateHeadersConflictMessage), engine)
      else
        let pluginOptions :=
          match engine.privateHeaders with
          | .value v =>
            { pluginOptions with
                sendHeaders := some (makeSendValuesBaseOptionsFromLegacy v) }
          | .null => pluginOptions
          | .undefined => { pluginOptions with sendHeaders := engine.sendHeaders }
        (.ok pluginOptions, engine)

/-- The result of `legacyOptionsToPluginOptions` (error thrown or canonical
record returned). -/
def legacyOptionsToPluginOptions (engine : EngineReportingOptions) :
    Except ConfigError ApolloServerPluginUsageReportingOptions :=
  (legacyOptionsToPluginOptionsRun engine).1

/-- Closed form of the canonical rewrite function the call produces: the
synthesized masking function when `maskErrorDetails` is truthy, else the
input's own function when truthy, else absent. -/
def rewriteErrorResult (engine : EngineReportingOptions) :
    Option (GraphQLError → Option GraphQLError) :=
  if maskTruthy engine.maskErrorDetails then
    some fun _ => some { message := maskedMessage }
  else if rewriteTruthy engine.rewriteError then
    rewriteFunctionOf engine.rewriteError
  else none

/-- Closed form of the canonical record the call returns when no conflict
check throws. -/
def pluginOptionsResult (engine : EngineReportingOptions) :
    ApolloServerPluginUsageReportingOptions :=
  { calculateSignature := engine.calculateSignature
    reportIntervalMs := engine.reportIntervalMs
    maxUncompressedReportSize := engine.maxUncompressedReportSize
    endpointUrl := engine.tracesEndpointUrl.or engine.endpointUrl
    debugPrintReports := engine.debugPrintReports
    requestAgent := engine.requestAgent
    maxAttempts := engine.maxAttempts
    minimumRetryDelayMs := engine.minimumRetryDelayMs
    reportErrorFunction := engine.reportErrorFunction
    sendVariableValues :=
      match engine.privateVariables with
      | .value v => some (.base (makeSendValuesBaseOptionsFromLegacy v))
      | _ => engine.sendVariableValues
    includeRequest :=
      match engine.reportTiming with
      | some (.func h) => some h
      | _ => none
    sendHeaders :=
      match engine.privateHeaders with
      | .value v => some (makeSendValuesBaseOptionsFromLegacy v)
      | _ => engine.sendHeaders
    sendReportsImmediately := engine.sendReportsImmediately
    rewriteError := rewriteErrorResult engine
    generateClientInfo := engine.generateClientInfo }

/-- Closed form of the call's result: the four conflict checks in source
order, else the canonical record. -/
def legacyResult (engine : EngineReportingOptions) :
    Except ConfigError ApolloServerPluginUsageReportingOptions :=
  if hasMaskRewriteConflict engine then
    .error (.conflictingOptions maskRewriteConflictMessage)
  else if hasRewriteTypeError engine then
    .error (.invalidOptionType rewriteErrorTypeMessage)
  else if hasPrivateVariablesConflict engine then
    .error (.conflictingOptions privateVariablesConflictMessage)
  else if hasPrivateHeadersConflict engine then
    .error (.conflictingOptions privateHeadersConflictMessage)
  else .ok (pluginOptionsResult engine)

/-- Closed form of the input's state after the call: unchanged, except that
`maskErrorDetails` is deleted when the branch of line 315 runs (the flag is
truthy and `rewriteError` is falsy). -/
def legacyFinalEngine (engine : EngineReportingOptions) : EngineReportingOptions :=
  if maskTruthy engine.maskErrorDetails && !rewriteTruthy engine.rewriteError then
    { engine with maskErrorDetails := none }
  else engine

/-- Whether the `rewriteError` field respects its declared TypeScript type
`(err: GraphQLError) => GraphQLError | null` (absent, or a function): true for
every value expressible in the interface of lines 19-267, false only for a
runtime value outside it. -/
def rewriteWellTyped (engine : EngineReportingOptions) : Bool :=
  match engine.rewriteError with
  | some (.notFunc _) => false
  | _ => true

/-- Modelled from the spec for the refinement claim about pass-through: the
input restricted to its current field names (spec.md section 4.1: the
pass-through fields of rule 1; the current endpoint field of rule 2; the
timing predicate of rule 3 when it is a function; the current rewrite
function of rule 4; the current redaction fields of rules 5 and 6). -/
def currentFieldSubset (engine : EngineReportingOptions) :
    ApolloServerPluginUsageReportingOptions :=
  { calculateSignature := engine.calculateSignature
    reportIntervalMs := engine.reportIntervalMs
    maxUncompressedReportSize := engine.maxUncompressedReportSize
    endpointUrl := engine.tracesEndpointUrl
    debugPrintReports := engine.debugPrintReports
    requestAgent := engine.requestAgent
    maxAttempts := engine.maxAttempts
    minimumRetryDelayMs := engine.minimumRetryDelayMs
    reportErrorFunction := engine.reportErrorFunction
    sendVariableValues := engine.sendVariableValues
    includeRequest :=
      match engine.reportTiming with
      | some (.func h) => some h
      | _ => none
    sendHeaders := engine.sendHeaders
    sendReportsImmediately := engine.sendReportsImmediately
    rewriteError := rewriteFunctionOf engine.rewriteError
    generateClientInfo := engine.generateClientInfo }

/-- The run is the pair of the two closed forms. -/
theorem legacyOptionsToPluginOptionsRun_eq (engine : EngineReportingOptions) :
    legacyOptionsToPluginOptionsRun engine = (legacyResult engine, legacyFinalEngine engine) := by
  cases hM : maskTruthy engine.maskErrorDetails <;>
  cases hR : rewriteTruthy engine.rewriteError <;>
  cases hF : rewriteIsFunction engine.rewriteError <;>
  cases hPV : engine.privateVariables <;>
  cases hPH : engine.privateHeaders <;>
  simp [legacyOptionsToPluginOptionsRun, legacyResult, legacyFinalEngine,
    pluginOptionsResult, rewriteErrorResult, hasMaskRewriteConflict,
    hasRewriteTypeError, hasPrivateVariablesConflict, hasPrivateHeadersConflict,
    JSOpt.isDefined, hM, hR, hF, hPV, hPH] <;>
  split_ifs <;> simp_all

/-- The call's result in closed form. -/
theorem legacyOptionsToPluginOptions_eq (engine : EngineReportingOptions) :
    legacyOptionsToPluginOptions engine = legacyResult engine := by
  rw [legacyOptionsToPluginOptions, legacyOptionsToPluginOptionsRun_eq]

/-- A returned canonical record is the closed-form record. -/
theorem legacyOptionsToPluginOptions_ok_eq (engine : EngineReportingOptions)
    (out : ApolloServerPluginUsageReportingOptions)
    (h : legacyOptionsToPluginOptions engine = .ok out) :
    out = pluginOptionsResult engine := by
  rw [legacyOptionsToPluginOptions_eq, legacyResult] at h
  split_ifs at h <;> simp_all

/-- A well-typed `rewriteError` field never trips the non-function check of
line 313. -/
theorem rewriteWellTyped_no_typeError (engine : EngineReportingOptions)
    (hwt : rewriteWellTyped engine = true) : hasRewriteTypeError engine = false := by
  cases hre : engine.rewriteError with
  | none => simp [hasRewriteTypeError, rewriteTruthy, hre]
  | some ro =>
    cases ro with
    | func f => simp [hasRewriteTypeError, rewriteTruthy, rewriteIsFunction, hre]
    | notFunc t => simp [rewriteWellTyped, hre] at hwt

/-- If any of the three mutual-exclusion checks fires (and the non-function
check of line 313 does not), the call throws a `ConflictingOptions` error. -/
theorem anyConflict_conflictingOptions (engine : EngineReportingOptions)
    (htype : hasRewriteTypeError engine = false)
    (h : (hasMaskRewriteConflict engine || hasPrivateVariablesConflict engine ||
        hasPrivateHeadersConflict engine) = true) :
    ∃ d, legacyOptionsToPluginOptions engine = .error (.conflictingOptions d) := by
  cases hA : hasMaskRewriteConflict engine <;>
  cases hC : hasPrivateVariablesConflict engine <;>
  cases hD : hasPrivateHeadersConflict engine <;>
  simp_all [legacyOptionsToPluginOptions_eq, legacyResult]

/-- C1 counterexample: the claim that the input is never mutated fails on the
configuration that sets only `maskErrorDetails: true`; line 317 deletes the
field from the input, so the input differs after the call although the call
returns a canonical record. -/
theorem c1_mutation_counterexample :
    (legacyOptionsToPluginOptionsRun { maskErrorDetails := some true }).2
      ≠ ({ maskErrorDetails := some true } : EngineReportingOptions) := by
  rw [legacyOptionsToPluginOptionsRun_eq]
  intro h
  have h2 := congrArg EngineReportingOptions.maskErrorDetails h
  simp [legacyFinalEngine, maskTruthy, rewriteTruthy] at h2

/-- C1 amended: the call leaves its input unchanged except in one case: when
`maskErrorDetails` is truthy and `rewriteError` is falsy, the branch of line
315 deletes `maskErrorDetails` from the input; in every other case (whether
the call returns a record or throws) the input is returned unchanged. -/
theorem c1_final_state_characterization (engine : EngineReportingOptions) :
    (legacyOptionsToPluginOptionsRun engine).2 =
      if maskTruthy engine.maskErrorDetails && !rewriteTruthy engine.rewriteError then
        { engine with maskErrorDetails := none }
      else engine := by
  rw [legacyOptionsToPluginOptionsRun_eq]
  rfl

/-- C2 counterexample: with `privateVariables: null` and `sendVariableValues`
set to a rule, the call does not pass the rule through; `typeof null` is not
`'undefined'`, so the conflict check of lines 324-327 fires and the call
throws. -/
theorem c2_null_privateVariables_counterexample :
    legacyOptionsToPluginOptions
        { privateVariables := .null, sendVariableValues := some (.base .sendNone) }
      = .error (.conflictingOptions privateVariablesConflictMessage) := rfl

/-- C2 amended: for every configuration with `privateVariables: null` and
`sendVariableValues` set to a rule (and no earlier error-masking failure), the
call fails with the `ConflictingOptions` error of lines 328-332: null counts
as the deprecated field being present for the conflict check, not as absent. -/
theorem c2_null_privateVariables_conflict (engine : EngineReportingOptions)
    (r : VariableValueOptions)
    (hpv : engine.privateVariables = .null)
    (hsv : engine.sendVariableValues = some r)
    (hmask : hasMaskRewriteConflict engine = false)
    (htype : hasRewriteTypeError engine = false) :
    legacyOptionsToPluginOptions engine
      = .error (.conflictingOptions privateVariablesConflictMessage) := by
  simp [legacyOptionsToPluginOptions_eq, legacyResult, hmask, htype,
    hasPrivateVariablesConflict, hpv, hsv, JSOpt.isDefined]

/-- C2 amended witness at a concrete input. -/
theorem c2_null_privateVariables_conflict_witness :
    legacyOptionsToPluginOptions
        { reportIntervalMs := some 7, privateVariables := .null,
          sendVariableValues := some (.base (.exceptNames ["a"])) }
      = .error (.conflictingOptions privateVariablesConflictMessage) :=
  c2_null_privateVariables_conflict _ (.base (.exceptNames ["a"])) rfl rfl rfl rfl

/-- C3 counterexample: the endpoint pair is not covered by the hard-failure
invariant; with both `endpointUrl: "old"` and `tracesEndpointUrl: "new"` set
the call succeeds, silently resolving the pair to the current value (line
295). -/
theorem c3_endpoint_pair_counterexample :
    legacyOptionsToPluginOptions
        { endpointUrl := some "old", tracesEndpointUrl := some "new" }
      = .ok { endpointUrl := some "new" } := rfl

/-- C3 amended: the mutual-exclusion invariant holds for the three pairs
checked by the code (maskErrorDetails/rewriteError, privateVariables/
sendVariableValues, privateHeaders/sendHeaders): any of those conflicts makes
the call fail with a `ConflictingOptions` error (provided `rewriteError` does
not itself fail the type check of line 313); the endpointUrl/tracesEndpointUrl
pair is instead resolved silently, the current field preferred and the
deprecated one used as fallback. -/
theorem c3_pairs_conflict_or_endpoint_override :
    (∀ engine : EngineReportingOptions,
        hasRewriteTypeError engine = false →
        (hasMaskRewriteConflict engine || hasPrivateVariablesConflict engine ||
            hasPrivateHeadersConflict engine) = true →
        ∃ d, legacyOptionsToPluginOptions engine = .error (.conflictingOptions d))
    ∧ (∀ (engine : EngineReportingOptions)
          (out : ApolloServerPluginUsageReportingOptions),
        legacyOptionsToPluginOptions engine = .ok out →
        out.endpointUrl = engine.tracesEndpointUrl.or engine.endpointUrl) := by
  constructor
  · exact fun engine htype h => anyConflict_conflictingOptions engine htype h
  · intro engine out h
    rw [legacyOptionsToPluginOptions_ok_eq engine out h]
    rfl

/-- C3 amended witness: a privateVariables conflict at a concrete input, and
the endpoint override at a concrete input with both URL fields set. -/
theorem c3_pairs_conflict_or_endpoint_override_witness :
    (∃ d, legacyOptionsToPluginOptions
        { privateVariables := .value (.bool true),
          sendVariableValues := some (.base .sendNone) }
      = .error (.conflictingOptions d))
    ∧ ({ endpointUrl := some "new" } :
          ApolloServerPluginUsageReportingOptions).endpointUrl
      = (({ endpointUrl := some "old", tracesEndpointUrl := some "new" } :
          EngineReportingOptions).tracesEndpointUrl).or
        ({ endpointUrl := some "old", tracesEndpointUrl := some "new" } :
          EngineReportingOptions).endpointUrl :=
  ⟨c3_pairs_conflict_or_endpoint_override.1 _ rfl rfl,
    c3_pairs_conflict_or_endpoint_override.2
      { endpointUrl := some "old", tracesEndpointUrl := some "new" }
      { endpointUrl := some "new" } rfl⟩

/-- C4: for every configuration whose `rewriteError` respects its declared
type, setting `privateVariables` to a non-null value together with
`sendVariableValues` makes the call fail with a `ConflictingOptions` error,
for every combination of those values; the same holds for the
privateHeaders/sendHeaders pair. -/
theorem c4_private_current_mutual_exclusion (engine : EngineReportingOptions)
    (hwt : rewriteWellTyped engine = true) :
    ((∃ v r, engine.privateVariables = .value v ∧
        engine.sendVariableValues = some r) →
      ∃ d, legacyOptionsToPluginOptions engine = .error (.conflictingOptions d))
    ∧ ((∃ v r, engine.privateHeaders = .value v ∧ engine.sendHeaders = some r) →
      ∃ d, legacyOptionsToPluginOptions engine = .error (.conflictingOptions d)) := by
  have htype := rewriteWellTyped_no_typeError engine hwt
  constructor
  · rintro ⟨v, r, hpv, hsv⟩
    exact anyConflict_conflictingOptions engine htype
      (by simp [hasPrivateVariablesConflict, hpv, hsv, JSOpt.isDefined])
  · rintro ⟨v, r, hph, hsh⟩
    exact anyConflict_conflictingOptions engine htype
      (by simp [hasPrivateHeadersConflict, hph, hsh, JSOpt.isDefined])

/-- C4 witness: both pairs set at concrete inputs. -/
theorem c4_private_current_mutual_exclusion_witness :
    (∃ d, legacyOptionsToPluginOptions
        { privateVariables := .value (.arr ["a"]),
          sendVariableValues := some (.base .sendAll) }
      = .error (.conflictingOptions d))
    ∧ (∃ d, legacyOptionsToPluginOptions
        { privateHeaders := .value (.bool false), sendHeaders := some .sendNone }
      = .error (.conflictingOptions d)) :=
  ⟨(c4_private_current_mutual_exclusion
        { privateVariables := .value (.arr ["a"]),
          sendVariableValues := some (.base .sendAll) } rfl).1
      ⟨.arr ["a"], .base .sendAll, rfl, rfl⟩,
    (c4_private_current_mutual_exclusion
        { privateHeaders := .value (.bool false), sendHeaders := some .sendNone }
        rfl).2
      ⟨.bool false, .sendNone, rfl, rfl⟩⟩

/-- C5: a deprecated redaction option set alone (non-null, current field
absent) is converted on return: an array of names to the ExceptNames rule
over those names, true to the None rule, false to the All rule; the same
conversion maps privateHeaders into sendHeaders. -/
theorem c5_private_alone_converted (engine : EngineReportingOptions)
    (out : ApolloServerPluginUsageReportingOptions)
    (h : legacyOptionsToPluginOptions engine = .ok out) :
    (engine.sendVariableValues = none →
      (∀ l, engine.privateVariables = .value (.arr l) →
        out.sendVariableValues = some (.base (.exceptNames l)))
      ∧ (engine.privateVariables = .value (.bool true) →
        out.sendVariableValues = some (.base .sendNone))
      ∧ (engine.privateVariables = .value (.bool false) →
        out.sendVariableValues = some (.base .sendAll)))
    ∧ (engine.sendHeaders = none →
      (∀ l, engine.privateHeaders = .value (.arr l) →
        out.sendHeaders = some (.exceptNames l))
      ∧ (engine.privateHeaders = .value (.bool true) →
        out.sendHeaders = some .sendNone)
      ∧ (engine.privateHeaders = .value (.bool false) →
        out.sendHeaders = some .sendAll)) := by
  rw [legacyOptionsToPluginOptions_ok_eq engine out h]
  refine ⟨fun _ => ⟨?_, ?_, ?_⟩, fun _ => ⟨?_, ?_, ?_⟩⟩ <;>
    intros <;>
    simp_all [pluginOptionsResult, makeSendValuesBaseOptionsFromLegacy]

/-- C5 witness: the array shape at a concrete input. -/
theorem c5_private_alone_converted_witness :
    ({ sendVariableValues := some (.base (.exceptNames ["a", "b"])) } :
        ApolloServerPluginUsageReportingOptions).sendVariableValues
      = some (.base (.exceptNames ["a", "b"])) :=
  ((c5_private_alone_converted
      { privateVariables := .value (.arr ["a", "b"]) }
      { sendVariableValues := some (.base (.exceptNames ["a", "b"])) } rfl).1
    rfl).1 ["a", "b"] rfl

/-- C6: with `maskErrorDetails: true` set and `rewriteError` absent (and no
redaction-pair conflict), the call succeeds and the canonical `rewriteError`
is the synthesized function of line 316, which maps every input error to an
error whose message is the fixed redaction marker, regardless of the original
message. -/
theorem c6_mask_synthesizes_rewrite (engine : EngineReportingOptions)
    (hmask : engine.maskErrorDetails = some true)
    (hrw : engine.rewriteError = none)
    (hpv : hasPrivateVariablesConflict engine = false)
    (hph : hasPrivateHeadersConflict engine = false) :
    ∃ out, legacyOptionsToPluginOptions engine = .ok out ∧
      ∃ r, out.rewriteError = some r ∧
        ∀ e : GraphQLError, r e = some { message := "<masked>" } := by
  refine ⟨pluginOptionsResult engine, ?_, ?_⟩
  · simp [legacyOptionsToPluginOptions_eq, legacyResult, hasMaskRewriteConflict,
      hasRewriteTypeError, hmask, hrw, rewriteTruthy, hpv, hph]
  · refine ⟨fun _ => some { message := maskedMessage }, ?_, fun e => rfl⟩
    simp [pluginOptionsResult, rewriteErrorResult, hmask, maskTruthy]

/-- C6 witness: the configuration that sets only `maskErrorDetails: true`. -/
theorem c6_mask_synthesizes_rewrite_witness :
    ∃ out, legacyOptionsToPluginOptions { maskErrorDetails := some true } = .ok out ∧
      ∃ r, out.rewriteError = some r ∧
        ∀ e : GraphQLError, r e = some { message := "<masked>" } :=
  c6_mask_synthesizes_rewrite { maskErrorDetails := some true } rfl rfl rfl rfl

/-- C7: setting both `maskErrorDetails: true` and a `rewriteError` function
makes the call fail with the `ConflictingOptions` error of line 312, whose
message names both maskErrorDetails and rewriteError. -/
theorem c7_mask_rewrite_conflict (engine : EngineReportingOptions)
    (f : GraphQLError → Option GraphQLError)
    (hmask : engine.maskErrorDetails = some true)
    (hrw : engine.rewriteError = some (.func f)) :
    legacyOptionsToPluginOptions engine
      = .error (.conflictingOptions maskRewriteConflictMessage) := by
  simp [legacyOptionsToPluginOptions_eq, legacyResult, hasMaskRewriteConflict,
    maskTruthy, rewriteTruthy, hmask, hrw]

/-- C7 witness at a concrete input. -/
theorem c7_mask_rewrite_conflict_witness :
    legacyOptionsToPluginOptions
        { maskErrorDetails := some true, rewriteError := some (.func fun e => some e) }
      = .error (.conflictingOptions maskRewriteConflictMessage) :=
  c7_mask_rewrite_conflict
    { maskErrorDetails := some true, rewriteError := some (.func fun e => some e) }
    (fun e => some e) rfl rfl

/-- C8 counterexample: a falsy non-function `rewriteError` value (for example
`rewriteError: false` or `rewriteError: 0`) does not fail at all; the guard of
line 313 first requires the value to be truthy, so the call succeeds and the
claim that every non-function value fails with `InvalidOptionType` is false. -/
theorem c8_falsy_nonfunction_counterexample :
    legacyOptionsToPluginOptions { rewriteError := some (.notFunc false) }
      = .ok {} := rfl

/-- C8 amended: a truthy non-function `rewriteError` value, with
`maskErrorDetails` not also truthy, fails with the `InvalidOptionType` error
of line 314 stating that rewriteError must be a function; a falsy
non-function value is ignored (the canonical `rewriteError` stays absent when
the call returns and `maskErrorDetails` is not truthy). -/
theorem c8_nonfunction_rewrite_behaviour :
    (∀ (engine : EngineReportingOptions),
        engine.rewriteError = some (.notFunc true) →
        maskTruthy engine.maskErrorDetails = false →
        legacyOptionsToPluginOptions engine
          = .error (.invalidOptionType rewriteErrorTypeMessage))
    ∧ (∀ (engine : EngineReportingOptions)
          (out : ApolloServerPluginUsageReportingOptions),
        engine.rewriteError = some (.notFunc false) →
        maskTruthy engine.maskErrorDetails = false →
        legacyOptionsToPluginOptions engine = .ok out →
        out.rewriteError = none) := by
  constructor
  · intro engine hrw hmask
    simp [legacyOptionsToPluginOptions_eq, legacyResult, hasMaskRewriteConflict,
      hasRewriteTypeError, rewriteTruthy, rewriteIsFunction, hrw, hmask]
  · intro engine out hrw hmask h
    rw [legacyOptionsToPluginOptions_ok_eq engine out h]
    simp [pluginOptionsResult, rewriteErrorResult, rewriteTruthy, hrw, hmask]

/-- C8 amended witness: the truthy non-function value fails with the type
error, and the falsy one leaves the canonical field absent. -/
theorem c8_nonfunction_rewrite_behaviour_witness :
    legacyOptionsToPluginOptions { rewriteError := some (.notFunc true) }
        = .error (.invalidOptionType rewriteErrorTypeMessage)
    ∧ ({} : ApolloServerPluginUsageReportingOptions).rewriteError = none :=
  ⟨c8_nonfunction_rewrite_behaviour.1 { rewriteError := some (.notFunc true) } rfl rfl,
    c8_nonfunction_rewrite_behaviour.2 { rewriteError := some (.notFunc false) } {}
      rfl rfl rfl⟩

/-- C9: an already-canonical configuration — a LegacyConfig none of whose
deprecated fields (endpointUrl, privateVariables, privateHeaders,
maskErrorDetails, schemaTag and the experimental_ aliases) is set, with
`rewriteError` respecting its declared function type — passes through: the
call succeeds and returns exactly the input restricted to its current field
names. -/
theorem c9_canonical_passthrough (engine : EngineReportingOptions)
    (hep : engine.endpointUrl = none)
    (hpv : engine.privateVariables = .undefined)
    (hph : engine.privateHeaders = .undefined)
    (hmask : engine.maskErrorDetails = none)
    (_htag : engine.schemaTag = none)
    (_hex1 : engine.experimental_schemaReporting = none)
    (_hex2 : engine.experimental_overrideReportedSchema = none)
    (_hex3 : engine.experimental_schemaReportingInitialDelayMaxMs = none)
    (hwt : rewriteWellTyped engine = true) :
    legacyOptionsToPluginOptions engine = .ok (currentFieldSubset engine) := by
  have htype := rewriteWellTyped_no_typeError engine hwt
  have hok : legacyOptionsToPluginOptions engine = .ok (pluginOptionsResult engine) := by
    simp [legacyOptionsToPluginOptions_eq, legacyResult, hasMaskRewriteConflict,
      maskTruthy, hmask, htype, hasPrivateVariablesConflict,
      hasPrivateHeadersConflict, hpv, hph, JSOpt.isDefined]
  rw [hok]
  cases hre : engine.rewriteError with
  | none =>
    simp [pluginOptionsResult, currentFieldSubset, rewriteErrorResult, maskTruthy,
      hmask, rewriteTruthy, rewriteFunctionOf, hre, hpv, hph, hep, Option.or_none]
  | some ro =>
    cases ro with
    | func f =>
      simp [pluginOptionsResult, currentFieldSubset, rewriteErrorResult, maskTruthy,
        hmask, rewriteTruthy, rewriteFunctionOf, hre, hpv, hph, hep, Option.or_none]
    | notFunc t => simp [rewriteWellTyped, hre] at hwt

/-- C9 witness: a canonical configuration with several current fields set. -/
theorem c9_canonical_passthrough_witness :
    legacyOptionsToPluginOptions
        { reportIntervalMs := some 7, tracesEndpointUrl := some "u",
          sendVariableValues := some (.base (.onlyNames ["n"])),
          reportTiming := some (.func 3), sendReportsImmediately := some true }
      = .ok (currentFieldSubset
        { reportIntervalMs := some 7, tracesEndpointUrl := some "u",
          sendVariableValues := some (.base (.onlyNames ["n"])),
          reportTiming := some (.func 3), sendReportsImmediately := some true }) :=
  c9_canonical_passthrough
    { reportIntervalMs := some 7, tracesEndpointUrl := some "u",
      sendVariableValues := some (.base (.onlyNames ["n"])),
      reportTiming := some (.func 3), sendReportsImmediately := some true }
    rfl rfl rfl rfl rfl rfl rfl rfl rfl

/-- C10: the schema-reporting and logging fields of the input (reportSchema,
overrideReportedSchema, schemaReportingInitialDelayMaxMs, schemaReportingUrl,
logger and their experimental_ aliases) are never read: changing them in any
way never changes the call's result (and the canonical record has no such
fields to carry them). -/
theorem c10_schema_reporting_fields_not_read (engine : EngineReportingOptions)
    (r : Option Bool) (o : Option String) (d : Option Int) (u : Option String)
    (lg : Option Nat) (e1 : Option Bool) (e2 : Option String) (e3 : Option Int) :
    legacyOptionsToPluginOptions
        { engine with
          reportSchema := r
          overrideReportedSchema := o
          schemaReportingInitialDelayMaxMs := d
          schemaReportingUrl := u
          logger := lg
          experimental_schemaReporting := e1
          experimental_overrideReportedSchema := e2
          experimental_schemaReportingInitialDelayMaxMs := e3 }
      = legacyOptionsToPluginOptions engine := by
  rw [legacyOptionsToPluginOptions_eq, legacyOptionsToPluginOptions_eq]
  rfl
